import Mathlib

/-!
# Verification of the flask_blog CRUD/auth core (src/main.py)

Shallow embedding of the data model and the request handlers of `main.py`.
Each handler is translated from the Python source: the SQLAlchemy tables
become Lean structures, the per-request ORM session becomes explicit state
passing on a `DB` value, and the Flask-Login session becomes an
`Option Nat` holding the logged-in user's id (which is what
`login_user`/`load_user` store and resolve).

Library behaviour that `main.py` relies on is embedded as follows:
* `werkzeug.security.generate_password_hash` / `check_password_hash`:
  modelled as a salted pairing and the matching verification, which is the
  observable contract (verification succeeds exactly on the original
  password); one-wayness is not observable in a functional model.
* `flask_login.login_required`: `main.py` never sets
  `login_manager.login_view` (and no `unauthorized_callback`), so
  Flask-Login answers an unauthenticated request to a guarded route with
  `abort(401)` rather than a redirect.
* Python decorators apply bottom-up, so at request time `login_required`
  runs before `admin_only`; the guard pipeline records which checks were
  executed in an event trace.
* `BlogPost.query.get(pid)` returns `None` when absent; a subsequent
  attribute access on `None` raises `AttributeError`, and
  `db.session.delete(None)` raises `UnmappedInstanceError`; both are
  embedded as a `pyError` response.
-/

namespace FlaskBlog

/-- Constant `ADMIN_EMAIL = "a@a.a"` from `main.py`. -/
def ADMIN_EMAIL : String := "a@a.a"

/-- Model of a werkzeug salted password hash: `generate_password_hash`
pairs the salt with the password, and `check_password_hash` verifies
exactly the original password.  (External library, not repository code;
this captures its documented verification contract.) -/
structure PwHash where
  salt : Nat
  pw : String
deriving DecidableEq, Repr

/-- Function `werkzeug.security.generate_password_hash(pw, method="pbkdf2:sha256",
salt_length=8)`; the salt chosen at call time is an explicit argument. -/
def generate_password_hash (pw : String) (salt : Nat) : PwHash :=
  ⟨salt, pw⟩

/-- Function `werkzeug.security.check_password_hash(stored, candidate)`. -/
def check_password_hash (stored : PwHash) (candidate : String) : Bool :=
  stored.pw == candidate

/-- Row of the `users` table (`class User`, main.py lines 65-80). -/
structure User where
  id : Nat
  name : String
  email : String
  password : PwHash
deriving DecidableEq, Repr

/-- Row of the `blog_posts` table (`class BlogPost`, main.py lines 83-99);
`author_id` is the foreign key to `users.id`. -/
structure BlogPost where
  id : Nat
  author_id : Nat
  title : String
  subtitle : String
  date : String
  body : String
  img_url : String
deriving DecidableEq, Repr

/-- Row of the `comments` table (`class Comment`, main.py lines 102-116);
`author_id` and `post_id` are the foreign keys.  SQLite does not enforce
foreign keys by default, so a row may hold a `post_id` that matches no
`blog_posts.id`. -/
structure Comment where
  id : Nat
  text : String
  author_id : Nat
  post_id : Nat
deriving DecidableEq, Repr

/-- The persisted store: the three tables plus the surrogate-id counters
that autoincrement on insert. -/
structure DB where
  users : List User
  blog_posts : List BlogPost
  comments : List Comment
  next_user_id : Nat
  next_post_id : Nat
  next_comment_id : Nat
deriving DecidableEq, Repr

/-- Lookup `db.session.get(User, user_id)`. -/
def get_user (db : DB) (uid : Nat) : Option User :=
  db.users.find? (fun u => u.id == uid)

/-- Function `load_user` (main.py lines 125-127): resolves the id stored in the
session cookie to a persisted `User`, or `None`. -/
def load_user (db : DB) (user_id : Nat) : Option User :=
  get_user db user_id

/-- Identity `flask_login.current_user`: `some u` when the session holds the id of a
persisted user, otherwise the anonymous identity (`none`). -/
def current_user (db : DB) (session : Option Nat) : Option User :=
  session.bind (load_user db)

/-- Lookup `BlogPost.query.get(post_id)`. -/
def get_post (db : DB) (post_id : Nat) : Option BlogPost :=
  db.blog_posts.find? (fun p => p.id == post_id)

/-- Responses a handler can produce: a rendered template, a redirect to a
named endpoint, an HTTP abort (401 from `login_required`, 403 from
`admin_only`), or an uncaught Python exception (a 500 in Flask). -/
inductive Response where
  | render (template : String)
  | redirect (endpoint : String)
  | abort (code : Nat)
  | pyError (msg : String)
deriving DecidableEq, Repr

/-- Guard events, recording which of the stacked decorators actually
executed on a request. -/
inductive Event where
  | loginCheck
  | adminCheck
  | handlerRun
deriving DecidableEq, Repr

/-- Outcome of one request: the store after the request, the session after
the request, the flash messages queued by the request, the response, and
the guard-event trace. -/
structure Res where
  db : DB
  session : Option Nat
  flashes : List String
  response : Response
  events : List Event
deriving DecidableEq, Repr

/-- The decorator stack `@login_required` over `@admin_only` (main.py
lines 163-165, 185-187, 209-211).  Decorators apply bottom-up, so
`login_required` executes first: with no `login_view` configured it
answers an anonymous request with `abort(401)` and the wrapped
`admin_only` is never entered.  `admin_only` (lines 51-61) compares
`current_user.email` with `ADMIN_EMAIL` and aborts 403 on mismatch. -/
def guardedRoute (db : DB) (session : Option Nat)
    (body : DB → User → DB × Response) : Res :=
  match current_user db session with
  | none =>
      { db := db, session := session, flashes := [],
        response := .abort 401, events := [.loginCheck] }
  | some u =>
      if u.email != ADMIN_EMAIL then
        { db := db, session := session, flashes := [],
          response := .abort 403, events := [.loginCheck, .adminCheck] }
      else
        let r := body db u
        { db := r.1, session := session, flashes := [],
          response := r.2,
          events := [.loginCheck, .adminCheck, .handlerRun] }

/-- Modelled from the spec: `CommentForm` lives in `forms.py`, which is not
under src/; per the spec, "POST validates comment text is non-empty", so
`validate_on_submit` succeeds exactly on a POST whose comment text is
non-empty. -/
def commentFormValidates (isPost : Bool) (text : String) : Bool :=
  isPost && text != ""

/-- Handler `show_post` (main.py lines 138-160).  On a validated POST by an
authenticated user a `Comment` is built with the submitted text, the
current user's id and the *requested* `post_id`, then committed; an
anonymous submitter only gets a flash message.  Only afterwards does the
handler read `requested_post.comments`: when `post_id` matches no row that
dereference raises `AttributeError` — after the commit. -/
def show_post (db : DB) (session : Option Nat) (post_id : Nat)
    (isPost : Bool) (commentText : String) : Res :=
  let requested_post := get_post db post_id
  let step : DB × List String :=
    if commentFormValidates isPost commentText then
      match current_user db session with
      | some u =>
          let new_comment : Comment :=
            ⟨db.next_comment_id, commentText, u.id, post_id⟩
          (⟨db.users, db.blog_posts, db.comments ++ [new_comment],
            db.next_user_id, db.next_post_id, db.next_comment_id + 1⟩, [])
      | none => (db, ["You need to be logged in to comment."])
    else
      (db, [])
  match requested_post with
  | some _ =>
      { db := step.1, session := session, flashes := step.2,
        response := .render "post.html", events := [] }
  | none =>
      { db := step.1, session := session, flashes := step.2,
        response := .pyError "AttributeError: NoneType has no attribute comments",
        events := [] }

/-- Modelled from the spec: `CreatePostForm` (forms.py, not under src/)
carries the title, subtitle, body and cover-image URL that `main.py`
reads as `form.title.data`, `form.subtitle.data`, `form.body.data`,
`form.img_url.data`. -/
structure PostFormData where
  title : String
  subtitle : String
  body : String
  img_url : String
deriving DecidableEq, Repr

/-- Handler body of `add_new_post` (main.py lines 166-182), entered only
after both guards pass; `today` is `date.today().strftime(...)` and
`validates` is `form.validate_on_submit()`.  `blog_posts.title` is
declared UNIQUE (main.py line 95) and SQLite enforces UNIQUE (unlike
foreign keys), so the commit raises `IntegrityError` — leaving the store
unchanged — when the submitted title equals a persisted post's title. -/
def add_new_post_body (today : String) (validates : Bool)
    (form : PostFormData) (db : DB) (u : User) : DB × Response :=
  if validates then
    if db.blog_posts.any (fun p => p.title == form.title) then
      (db, .pyError "IntegrityError: UNIQUE constraint failed: blog_posts.title")
    else
      let new_post : BlogPost :=
        ⟨db.next_post_id, u.id, form.title, form.subtitle, today,
          form.body, form.img_url⟩
      (⟨db.users, db.blog_posts ++ [new_post], db.comments,
        db.next_user_id, db.next_post_id + 1, db.next_comment_id⟩,
        .redirect "get_all_posts")
  else
    (db, .render "make-post.html")

/-- Route `/new-post`: the guard stack around `add_new_post_body`. -/
def add_new_post (db : DB) (session : Option Nat) (today : String)
    (validates : Bool) (form : PostFormData) : Res :=
  guardedRoute db session (add_new_post_body today validates form)

/-- The field overwrites `edit_post` performs on the fetched row (main.py
lines 198-202): title, subtitle, img_url and body come from the form and
`post.author` is reassigned to the current user; `post.id` and
`post.date` are not touched.  Other rows are untouched (ids are the
primary key, so at most one row matches). -/
def edit_apply (form : PostFormData) (u : User) (post_id : Nat)
    (p : BlogPost) : BlogPost :=
  if p.id == post_id then
    { p with title := form.title, subtitle := form.subtitle,
             img_url := form.img_url, author_id := u.id,
             body := form.body }
  else p

/-- Handler body of `edit_post` (main.py lines 188-206), entered only
after both guards pass.  It first reads `post.title` etc. to prefill the
form, so an absent post id raises `AttributeError`; on a validated submit
it commits the overwritten row (`edit_apply`).  `blog_posts.title` is
UNIQUE (main.py line 95), so the commit raises `IntegrityError` — leaving
the store unchanged — when the submitted title equals the title of a
different persisted post. -/
def edit_post_body (post_id : Nat) (validates : Bool)
    (form : PostFormData) (db : DB) (u : User) : DB × Response :=
  match get_post db post_id with
  | none => (db, .pyError "AttributeError: NoneType has no attribute title")
  | some _ =>
      if validates then
        if db.blog_posts.any (fun p => p.id != post_id && p.title == form.title) then
          (db, .pyError "IntegrityError: UNIQUE constraint failed: blog_posts.title")
        else
          (⟨db.users, db.blog_posts.map (edit_apply form u post_id),
            db.comments, db.next_user_id, db.next_post_id,
            db.next_comment_id⟩,
            .redirect "show_post")
      else
        (db, .render "make-post.html")

/-- Route `/edit-post/<post_id>`: the guard stack around
`edit_post_body`. -/
def edit_post (db : DB) (session : Option Nat) (post_id : Nat)
    (validates : Bool) (form : PostFormData) : Res :=
  guardedRoute db session (edit_post_body post_id validates form)

/-- Handler body of `delete_post` (main.py lines 212-216):
`BlogPost.query.get` followed by `db.session.delete`; deleting `None`
raises `UnmappedInstanceError`, so an absent id is an error, not a no-op.
No cascade is configured, so the comment rows are not deleted with the
post. -/
def delete_post_body (post_id : Nat) (db : DB) (_u : User) :
    DB × Response :=
  match get_post db post_id with
  | none => (db, .pyError "UnmappedInstanceError: db.session.delete(None)")
  | some _ =>
      (⟨db.users, db.blog_posts.filter (fun p => p.id != post_id),
        db.comments, db.next_user_id, db.next_post_id,
        db.next_comment_id⟩,
        .redirect "get_all_posts")

/-- Route `/delete/<post_id>`: the guard stack around
`delete_post_body`. -/
def delete_post (db : DB) (session : Option Nat) (post_id : Nat) : Res :=
  guardedRoute db session (delete_post_body post_id)

/-- Modelled from the spec: `RegisterForm` (forms.py, not under src/)
carries name, email and password, matching the spec's
`Register(name, email, password)`; `form.populate_obj(new_user)` copies
these fields onto the new row. -/
structure RegisterFormData where
  name : String
  email : String
  password : String
deriving DecidableEq, Repr

/-- Handler `register` (main.py lines 219-247).  On a validated submit it looks the
email up; if free, it persists a new user whose password is the salted
hash of the submitted password and logs that user in; otherwise it flashes
the duplicate-email message and redirects to the login page, changing
nothing.  `users.password` is declared UNIQUE (main.py line 71), so the
commit raises `IntegrityError` — before `login_user` runs and leaving the
store unchanged — when the generated hash string equals a persisted
user's stored hash (same password and salt). -/
def register (db : DB) (session : Option Nat) (validates : Bool)
    (form : RegisterFormData) (salt : Nat) : Res :=
  if validates then
    match db.users.find? (fun u => u.email == form.email) with
    | none =>
        let new_user : User :=
          ⟨db.next_user_id, form.name, form.email,
            generate_password_hash form.password salt⟩
        if db.users.any (fun u => u.password == new_user.password) then
          { db := db, session := session, flashes := [],
            response := .pyError "IntegrityError: UNIQUE constraint failed: users.password",
            events := [] }
        else
          { db := ⟨db.users ++ [new_user], db.blog_posts, db.comments,
              db.next_user_id + 1, db.next_post_id, db.next_comment_id⟩,
            session := some new_user.id, flashes := [],
            response := .redirect "get_all_posts", events := [] }
    | some _ =>
        { db := db, session := session,
          flashes := ["Email is already registered with another account."],
          response := .redirect "login", events := [] }
  else
    { db := db, session := session, flashes := [],
      response := .render "register.html", events := [] }

/-- Modelled from the spec: `LoginForm` (forms.py, not under src/) carries
email and password, which `main.py` reads as `form.email.data` and
`form.password.data`. -/
structure LoginFormData where
  email : String
  password : String
deriving DecidableEq, Repr

/-- Handler `login` (main.py lines 250-268).  On a validated submit it looks the
user up by email; a hit with a verifying password hash logs that user in,
anything else flashes "Incorrect credentials" and re-renders the form with
store and session untouched. -/
def login (db : DB) (session : Option Nat) (validates : Bool)
    (form : LoginFormData) : Res :=
  if validates then
    match db.users.find? (fun u => u.email == form.email) with
    | some user =>
        if check_password_hash user.password form.password then
          { db := db, session := some user.id, flashes := [],
            response := .redirect "get_all_posts", events := [] }
        else
          { db := db, session := session,
            flashes := ["Incorrect credentials"],
            response := .render "login.html", events := [] }
    | none =>
        { db := db, session := session,
          flashes := ["Incorrect credentials"],
          response := .render "login.html", events := [] }
  else
    { db := db, session := session, flashes := [],
      response := .render "login.html", events := [] }

/-- Handler `logout` (main.py lines 271-274): clears the session. -/
def logout (db : DB) (_session : Option Nat) : Res :=
  { db := db, session := none, flashes := [],
    response := .redirect "get_all_posts", events := [] }

/-! ## Concrete fixtures used by witnesses and counterexamples -/

/-- A persisted admin account (email equal to `ADMIN_EMAIL`). -/
def admin0 : User := ⟨1, "Admin", "a@a.a", generate_password_hash "adminpw" 5⟩

/-- A persisted non-admin account. -/
def alice0 : User := ⟨2, "Alice", "b@b.b", generate_password_hash "pw1" 3⟩

/-- A persisted blog post authored by the admin. -/
def post0 : BlogPost := ⟨1, 1, "Hello", "sub", "May 1, 2023", "bodytext", "img"⟩

/-- A small concrete store: two users, one post, no comments. -/
def db0 : DB := ⟨[admin0, alice0], [post0], [], 3, 2, 1⟩

/-- A concrete post form submission. -/
def form0 : PostFormData := ⟨"T2", "S2", "B2", "I2"⟩

/-! ## Request sequences -/

/-- One client request against the application, with the client-supplied
data as parameters. -/
inductive Op where
  | opRegister (validates : Bool) (form : RegisterFormData) (salt : Nat)
  | opLogin (validates : Bool) (form : LoginFormData)
  | opLogout
  | opShowPost (post_id : Nat) (isPost : Bool) (text : String)
  | opAddPost (today : String) (validates : Bool) (form : PostFormData)
  | opEditPost (post_id : Nat) (validates : Bool) (form : PostFormData)
  | opDeletePost (post_id : Nat)
deriving DecidableEq, Repr

/-- Application state between requests: the persisted store plus the
session cookie. -/
structure AppState where
  db : DB
  session : Option Nat
deriving DecidableEq, Repr

/-- Dispatch one request to its handler and keep the store and session it
leaves behind. -/
def applyOp (s : AppState) (op : Op) : AppState :=
  let r : Res :=
    match op with
    | .opRegister v f salt => register s.db s.session v f salt
    | .opLogin v f => login s.db s.session v f
    | .opLogout => logout s.db s.session
    | .opShowPost pid ip t => show_post s.db s.session pid ip t
    | .opAddPost d v f => add_new_post s.db s.session d v f
    | .opEditPost pid v f => edit_post s.db s.session pid v f
    | .opDeletePost pid => delete_post s.db s.session pid
  ⟨r.db, r.session⟩

/-- The state reached from `s` by a sequence of requests. -/
def runOps (s : AppState) (ops : List Op) : AppState :=
  ops.foldl applyOp s

/-- The empty deployment: fresh tables (autoincrement counters at 1) and
an anonymous session. -/
def initState : AppState := ⟨⟨[], [], [], 1, 1, 1⟩, none⟩

/-- Comment→User referential integrity: every persisted comment's
`author_id` is the id of a persisted user. -/
def commentAuthorsExist (db : DB) : Prop :=
  ∀ c ∈ db.comments, ∃ u ∈ db.users, u.id = c.author_id

/-- Comment→BlogPost referential integrity: every persisted comment's
`post_id` is the id of a persisted post. -/
def commentPostsExist (db : DB) : Prop :=
  ∀ c ∈ db.comments, ∃ p ∈ db.blog_posts, p.id = c.post_id

/-! ## Helper lemmas -/

/-- The identity resolved from a session is a persisted user. -/
theorem current_user_mem {db : DB} {s : Option Nat} {u : User}
    (h : current_user db s = some u) : u ∈ db.users := by
  cases s with
  | none => exact absurd h (by simp [current_user])
  | some uid => exact List.mem_of_find?_eq_some h

theorem find?_eq_some_of_mem_unique {α : Type} {p : α → Bool} :
    ∀ (l : List α) (a : α), a ∈ l → p a = true →
      (∀ b ∈ l, p b = true → b = a) → l.find? p = some a
  | [], a, ha, _, _ => absurd ha (List.not_mem_nil a)
  | x :: xs, a, ha, hpa, huniq => by
      rw [List.find?_cons]
      cases hx : p x with
      | true =>
          have hxa : x = a := huniq x (List.mem_cons_self x xs) hx
          simp [hxa]
      | false =>
          have hax : a ∈ xs := by
            rcases List.mem_cons.mp ha with h | h
            · rw [h] at hpa; rw [hpa] at hx; exact Bool.noConfusion hx
            · exact h
          exact find?_eq_some_of_mem_unique xs a hax hpa
            (fun b hb hpb => huniq b (List.mem_cons_of_mem x hb) hpb)

theorem find?_eq_none_of_forall {α : Type} {p : α → Bool} {l : List α}
    (h : ∀ x ∈ l, p x = false) : l.find? p = none :=
  List.find?_eq_none.mpr (fun x hx => by simp [h x hx])

theorem get_post_eq_none {db : DB} {pid : Nat}
    (habs : ∀ p ∈ db.blog_posts, p.id ≠ pid) : get_post db pid = none :=
  find?_eq_none_of_forall (fun x hx => by
    simp only [beq_eq_false_iff_ne, ne_eq]
    exact habs x hx)

/-- Comment→User integrity transfers to a store that keeps every user and
whose comments are either old or have a persisted author. -/
theorem commentAuthorsExist_mono {db db' : DB}
    (h : commentAuthorsExist db)
    (husers : ∀ u ∈ db.users, u ∈ db'.users)
    (hcomments : ∀ c ∈ db'.comments,
      c ∈ db.comments ∨ ∃ u ∈ db'.users, u.id = c.author_id) :
    commentAuthorsExist db' := by
  intro c hc
  rcases hcomments c hc with hold | hnew
  · rcases h c hold with ⟨u, hu, he⟩
    exact ⟨u, husers u hu, he⟩
  · exact hnew

/-- A guarded route whose body touches neither the users nor the comments
table preserves Comment→User integrity. -/
theorem guardedRoute_preserves_commentAuthorsExist (db : DB)
    (session : Option Nat) (body : DB → User → DB × Response)
    (hbody : ∀ u, (body db u).1.users = db.users ∧
      (body db u).1.comments = db.comments)
    (h : commentAuthorsExist db) :
    commentAuthorsExist (guardedRoute db session body).db := by
  unfold guardedRoute
  cases hcu : current_user db session with
  | none => exact h
  | some u =>
      simp only
      split
      · exact h
      · intro c hc
        rw [(hbody u).2] at hc
        rcases h c hc with ⟨v, hv, he⟩
        refine ⟨v, ?_, he⟩
        rw [(hbody u).1]
        exact hv

/-- Every request preserves Comment→User integrity: the only route that
inserts a comment stamps it with the id of the authenticated (hence
persisted) user, and no route removes a user. -/
theorem applyOp_preserves_commentAuthorsExist (s : AppState) (op : Op)
    (h : commentAuthorsExist s.db) :
    commentAuthorsExist (applyOp s op).db := by
  cases op with
  | opRegister v f salt =>
      simp only [applyOp]
      unfold register
      split
      · split
        · dsimp only
          split
          · exact h
          · refine commentAuthorsExist_mono h ?_ ?_
            · intro u hu
              exact List.mem_append_left _ hu
            · intro c hc
              exact Or.inl hc
        · exact h
      · exact h
  | opLogin v f =>
      simp only [applyOp]
      unfold login
      split
      · split
        · split
          · exact h
          · exact h
        · exact h
      · exact h
  | opLogout =>
      exact h
  | opShowPost pid ip t =>
      simp only [applyOp]
      unfold show_post
      cases hcu : current_user s.db s.session with
      | none =>
          simp only [hcu]
          split <;> split <;> exact h
      | some u =>
          have hu : u ∈ s.db.users := current_user_mem hcu
          simp only [hcu]
          split <;> split
          case _ => -- post found, form validated: comment appended
            refine commentAuthorsExist_mono h (fun v hv => hv) ?_
            intro c hc
            rcases List.mem_append.mp hc with hold | hnew
            · exact Or.inl hold
            · rcases List.mem_singleton.mp hnew with rfl
              exact Or.inr ⟨u, hu, rfl⟩
          case _ => exact h
          case _ => -- post absent, form validated: comment still appended
            refine commentAuthorsExist_mono h (fun v hv => hv) ?_
            intro c hc
            rcases List.mem_append.mp hc with hold | hnew
            · exact Or.inl hold
            · rcases List.mem_singleton.mp hnew with rfl
              exact Or.inr ⟨u, hu, rfl⟩
          case _ => exact h
  | opAddPost d v f =>
      simp only [applyOp]
      refine guardedRoute_preserves_commentAuthorsExist _ _ _ ?_ h
      intro u
      unfold add_new_post_body
      split
      · split <;> exact ⟨rfl, rfl⟩
      · exact ⟨rfl, rfl⟩
  | opEditPost pid v f =>
      simp only [applyOp]
      refine guardedRoute_preserves_commentAuthorsExist _ _ _ ?_ h
      intro u
      unfold edit_post_body
      split
      · exact ⟨rfl, rfl⟩
      · split
        · split <;> exact ⟨rfl, rfl⟩
        · exact ⟨rfl, rfl⟩
  | opDeletePost pid =>
      simp only [applyOp]
      refine guardedRoute_preserves_commentAuthorsExist _ _ _ ?_ h
      intro u
      unfold delete_post_body
      split <;> exact ⟨rfl, rfl⟩

/-- Comment→User integrity is preserved along any request sequence. -/
theorem runOps_preserves_commentAuthorsExist (ops : List Op) :
    ∀ s : AppState, commentAuthorsExist s.db →
      commentAuthorsExist (runOps s ops).db := by
  induction ops with
  | nil => exact fun s h => h
  | cons op rest ih =>
      exact fun s h =>
        ih (applyOp s op) (applyOp_preserves_commentAuthorsExist s op h)

/-! ## Claims -/

/-- C1 counterexample: register a user, then POST a comment to post id
999, which identifies no persisted post.  `show_post` commits the comment
(with `post_id = 999`) before dereferencing the absent post, so the store
afterwards holds a Comment whose `post_id` matches no BlogPost: the
referential-integrity invariant is violated by a reachable request
sequence. -/
theorem C1_counterexample :
    ¬ commentPostsExist
        (runOps initState
          [Op.opRegister true ⟨"Alice", "a@x.com", "pw1"⟩ 3,
           Op.opShowPost 999 true "hi"]).db := by
  unfold commentPostsExist
  decide

/-- C1 (amended): after any sequence of requests from the empty
deployment, every persisted Comment references an existing User; the
Comment→BlogPost half of the claimed invariant does not hold, because a
comment submission to an absent post id is committed with that dangling
`post_id` (and a post delete leaves its comments behind). -/
theorem C1_comment_author_integrity (ops : List Op) :
    commentAuthorsExist (runOps initState ops).db :=
  runOps_preserves_commentAuthorsExist ops initState
    (fun c hc => absurd hc (List.not_mem_nil c))

/-- C3: an authenticated identity whose email differs from `ADMIN_EMAIL`
gets a hard 403 Forbidden from each of the three privileged routes
(create, edit, delete), with the store unchanged. -/
theorem C3_nonadmin_forbidden (db : DB) (session : Option Nat) (u : User)
    (today : String) (v₁ v₂ : Bool) (f₁ f₂ : PostFormData)
    (pid₁ pid₂ : Nat)
    (hu : current_user db session = some u)
    (hne : u.email ≠ ADMIN_EMAIL) :
    (add_new_post db session today v₁ f₁).response = Response.abort 403 ∧
    (add_new_post db session today v₁ f₁).db = db ∧
    (edit_post db session pid₁ v₂ f₂).response = Response.abort 403 ∧
    (edit_post db session pid₁ v₂ f₂).db = db ∧
    (delete_post db session pid₂).response = Response.abort 403 ∧
    (delete_post db session pid₂).db = db := by
  have hbne : (u.email != ADMIN_EMAIL) = true := bne_iff_ne.mpr hne
  simp [add_new_post, edit_post, delete_post, guardedRoute, hu, hbne]

/-- Witness for C3 at a concrete non-admin session. -/
theorem C3_nonadmin_forbidden_witness :
    current_user db0 (some 2) = some alice0 ∧
    alice0.email ≠ ADMIN_EMAIL ∧
    ((add_new_post db0 (some 2) "d" true form0).response = Response.abort 403 ∧
     (add_new_post db0 (some 2) "d" true form0).db = db0 ∧
     (edit_post db0 (some 2) 1 true form0).response = Response.abort 403 ∧
     (edit_post db0 (some 2) 1 true form0).db = db0 ∧
     (delete_post db0 (some 2) 1).response = Response.abort 403 ∧
     (delete_post db0 (some 2) 1).db = db0) :=
  ⟨by decide, by decide,
    C3_nonadmin_forbidden db0 (some 2) alice0 "d" true true form0 form0 1 1
      (by decide) (by decide)⟩

/-- C4: a registration attempt with an already-registered email leaves the
store untouched (existing record unaltered, nothing added), does not log
the registrant in, flashes the duplicate-email message and redirects to
the login page. -/
theorem C4_duplicate_email_register (db : DB) (session : Option Nat)
    (form : RegisterFormData) (salt : Nat) (u : User)
    (hu : u ∈ db.users) (he : u.email = form.email) :
    (register db session true form salt).db = db ∧
    (register db session true form salt).session = session ∧
    (register db session true form salt).flashes =
      ["Email is already registered with another account."] ∧
    (register db session true form salt).response = Response.redirect "login" := by
  have hsome : (db.users.find? (fun v => v.email == form.email)).isSome :=
    List.find?_isSome.mpr ⟨u, hu, by simp [he]⟩
  rcases Option.isSome_iff_exists.mp hsome with ⟨w, hw⟩
  simp [register, hw]

/-- Witness for C4: re-registering Alice's email on the concrete store. -/
theorem C4_duplicate_email_register_witness :
    alice0 ∈ db0.users ∧
    alice0.email = (RegisterFormData.mk "Eve" "b@b.b" "zz").email ∧
    ((register db0 none true ⟨"Eve", "b@b.b", "zz"⟩ 9).db = db0 ∧
     (register db0 none true ⟨"Eve", "b@b.b", "zz"⟩ 9).session = none ∧
     (register db0 none true ⟨"Eve", "b@b.b", "zz"⟩ 9).flashes =
       ["Email is already registered with another account."] ∧
     (register db0 none true ⟨"Eve", "b@b.b", "zz"⟩ 9).response =
       Response.redirect "login") :=
  ⟨by decide, by decide,
    C4_duplicate_email_register db0 none ⟨"Eve", "b@b.b", "zz"⟩ 9 alice0
      (by decide) (by decide)⟩

/-- C5: logging in with the email of a persisted user and a password whose
hash check fails leaves store and session untouched, flashes "Incorrect
credentials" and re-renders the login page. -/
theorem C5_wrong_password_login (db : DB) (session : Option Nat)
    (form : LoginFormData) (u : User)
    (hu : u ∈ db.users) (he : u.email = form.email)
    (huniq : ∀ v ∈ db.users, v.email = form.email → v = u)
    (hck : check_password_hash u.password form.password = false) :
    (login db session true form).db = db ∧
    (login db session true form).session = session ∧
    (login db session true form).flashes = ["Incorrect credentials"] ∧
    (login db session true form).response = Response.render "login.html" := by
  have hfind : db.users.find? (fun v => v.email == form.email) = some u :=
    find?_eq_some_of_mem_unique db.users u hu (by simp [he])
      (fun b hb hpb => huniq b hb (by simpa using hpb))
  simp [login, hfind, hck]

/-- Witness for C5: Alice's email with a wrong password on the concrete
store. -/
theorem C5_wrong_password_login_witness :
    alice0 ∈ db0.users ∧
    alice0.email = (LoginFormData.mk "b@b.b" "wrong").email ∧
    (∀ v ∈ db0.users, v.email = (LoginFormData.mk "b@b.b" "wrong").email → v = alice0) ∧
    check_password_hash alice0.password "wrong" = false ∧
    ((login db0 none true ⟨"b@b.b", "wrong"⟩).db = db0 ∧
     (login db0 none true ⟨"b@b.b", "wrong"⟩).session = none ∧
     (login db0 none true ⟨"b@b.b", "wrong"⟩).flashes = ["Incorrect credentials"] ∧
     (login db0 none true ⟨"b@b.b", "wrong"⟩).response = Response.render "login.html") :=
  ⟨by decide, by decide, by decide, by decide,
    C5_wrong_password_login db0 none ⟨"b@b.b", "wrong"⟩ alice0
      (by decide) (by decide) (by decide) (by decide)⟩

/-- C9: an admin-authorized delete of an absent post id is not a silent
no-op: the lookup yields nothing, `db.session.delete(None)` raises, and no
post is removed (the store is unchanged). -/
theorem C9_delete_absent_raises (db : DB) (session : Option Nat) (u : User)
    (pid : Nat)
    (hu : current_user db session = some u) (hadm : u.email = ADMIN_EMAIL)
    (habs : ∀ p ∈ db.blog_posts, p.id ≠ pid) :
    (delete_post db session pid).db = db ∧
    (delete_post db session pid).response =
      Response.pyError "UnmappedInstanceError: db.session.delete(None)" := by
  have hfind : get_post db pid = none := get_post_eq_none habs
  have hbne : (u.email != ADMIN_EMAIL) = false := by
    rw [hadm]; exact bne_self_eq_false _
  simp [delete_post, guardedRoute, delete_post_body, hu, hbne, hfind]

/-- Witness for C9: the admin deletes absent id 42 on the concrete store. -/
theorem C9_delete_absent_raises_witness :
    current_user db0 (some 1) = some admin0 ∧
    admin0.email = ADMIN_EMAIL ∧
    (∀ p ∈ db0.blog_posts, p.id ≠ 42) ∧
    ((delete_post db0 (some 1) 42).db = db0 ∧
     (delete_post db0 (some 1) 42).response =
       Response.pyError "UnmappedInstanceError: db.session.delete(None)") :=
  ⟨by decide, by decide, by decide,
    C9_delete_absent_raises db0 (some 1) admin0 42
      (by decide) (by decide) (by decide)⟩

/-- C10: a GET of a post id that matches no persisted post raises (the
handler dereferences `None` to read its comments) and leaves store and
session unchanged. -/
theorem C10_view_absent_raises (db : DB) (session : Option Nat) (pid : Nat)
    (t : String)
    (habs : ∀ p ∈ db.blog_posts, p.id ≠ pid) :
    (show_post db session pid false t).db = db ∧
    (show_post db session pid false t).session = session ∧
    (show_post db session pid false t).response =
      Response.pyError "AttributeError: NoneType has no attribute comments" := by
  have hfind : get_post db pid = none := get_post_eq_none habs
  simp [show_post, commentFormValidates, hfind]

/-- Witness for C10: GET of absent id 42 on the concrete store. -/
theorem C10_view_absent_raises_witness :
    (∀ p ∈ db0.blog_posts, p.id ≠ 42) ∧
    ((show_post db0 (some 2) 42 false "").db = db0 ∧
     (show_post db0 (some 2) 42 false "").session = some 2 ∧
     (show_post db0 (some 2) 42 false "").response =
       Response.pyError "AttributeError: NoneType has no attribute comments") :=
  ⟨by decide, C10_view_absent_raises db0 (some 2) 42 "" (by decide)⟩

/-- C2 counterexample: an anonymous request to the create-post route is
answered with `abort(401)` (no `login_view` is configured), not with a
redirect to the login page as the claim states. -/
theorem C2_counterexample :
    (add_new_post db0 none "d" true form0).response = Response.abort 401 ∧
    ¬ (add_new_post db0 none "d" true form0).response =
        Response.redirect "login" := by
  decide

/-- C2 (amended): an anonymous request to any of the three privileged
routes is denied by `login_required` with a 401 Unauthorized abort, the
store is unchanged, and the admin predicate is never evaluated on that
request. -/
theorem C2_anonymous_denied_before_admin_check (db : DB)
    (session : Option Nat) (today : String) (v₁ v₂ : Bool)
    (f₁ f₂ : PostFormData) (pid₁ pid₂ : Nat)
    (h : current_user db session = none) :
    ((add_new_post db session today v₁ f₁).response = Response.abort 401 ∧
     (add_new_post db session today v₁ f₁).db = db ∧
     Event.adminCheck ∉ (add_new_post db session today v₁ f₁).events) ∧
    ((edit_post db session pid₁ v₂ f₂).response = Response.abort 401 ∧
     (edit_post db session pid₁ v₂ f₂).db = db ∧
     Event.adminCheck ∉ (edit_post db session pid₁ v₂ f₂).events) ∧
    ((delete_post db session pid₂).response = Response.abort 401 ∧
     (delete_post db session pid₂).db = db ∧
     Event.adminCheck ∉ (delete_post db session pid₂).events) := by
  simp [add_new_post, edit_post, delete_post, guardedRoute, h]

/-- Witness for the amended C2 at a concrete anonymous request. -/
theorem C2_anonymous_denied_witness :
    current_user db0 none = none ∧
    (((add_new_post db0 none "d" true form0).response = Response.abort 401 ∧
      (add_new_post db0 none "d" true form0).db = db0 ∧
      Event.adminCheck ∉ (add_new_post db0 none "d" true form0).events) ∧
     ((edit_post db0 none 1 true form0).response = Response.abort 401 ∧
      (edit_post db0 none 1 true form0).db = db0 ∧
      Event.adminCheck ∉ (edit_post db0 none 1 true form0).events) ∧
     ((delete_post db0 none 1).response = Response.abort 401 ∧
      (delete_post db0 none 1).db = db0 ∧
      Event.adminCheck ∉ (delete_post db0 none 1).events)) :=
  ⟨by decide,
    C2_anonymous_denied_before_admin_check db0 none "d" true true form0 form0
      1 1 (by decide)⟩

/-- C6 counterexample: an anonymous POST with non-empty text to a post id
with no persisted post flashes the log-in message and persists nothing,
but the request then fails hard (the handler dereferences `None`), so the
message is not surfaced "instead of a hard failure" as claimed. -/
theorem C6_counterexample :
    current_user db0 none = none ∧
    (show_post db0 none 999 true "hi").db = db0 ∧
    (show_post db0 none 999 true "hi").flashes =
      ["You need to be logged in to comment."] ∧
    (show_post db0 none 999 true "hi").response =
      Response.pyError "AttributeError: NoneType has no attribute comments" := by
  decide

/-- C6 (amended): an anonymous comment submission with non-empty text
never persists a Comment (the store is unchanged) and queues the
user-visible flash message; the request completes with a normal render
when the post id identifies a persisted post, and fails hard afterwards
when it does not. -/
theorem C6_anonymous_comment_not_persisted (db : DB) (session : Option Nat)
    (pid : Nat) (text : String)
    (hanon : current_user db session = none) (htext : text ≠ "") :
    (show_post db session pid true text).db = db ∧
    (show_post db session pid true text).flashes =
      ["You need to be logged in to comment."] ∧
    ((get_post db pid).isSome →
      (show_post db session pid true text).response =
        Response.render "post.html") ∧
    (get_post db pid = none →
      (show_post db session pid true text).response =
        Response.pyError "AttributeError: NoneType has no attribute comments") := by
  have hbne : (text != "") = true := bne_iff_ne.mpr htext
  cases hp : get_post db pid with
  | none => simp [show_post, commentFormValidates, hanon, hbne, hp]
  | some q => simp [show_post, commentFormValidates, hanon, hbne, hp]

/-- Witness for the amended C6 at a concrete anonymous submission to the
existing post. -/
theorem C6_anonymous_comment_witness :
    current_user db0 none = none ∧ ("hi" : String) ≠ "" ∧
    ((show_post db0 none 1 true "hi").db = db0 ∧
     (show_post db0 none 1 true "hi").flashes =
       ["You need to be logged in to comment."] ∧
     ((get_post db0 1).isSome →
       (show_post db0 none 1 true "hi").response =
         Response.render "post.html") ∧
     (get_post db0 1 = none →
       (show_post db0 none 1 true "hi").response =
         Response.pyError "AttributeError: NoneType has no attribute comments")) :=
  ⟨by decide, by decide,
    C6_anonymous_comment_not_persisted db0 none 1 "hi" (by decide) (by decide)⟩

/-- C7: a successful (validated, and not violating the UNIQUE title
constraint — the submitted title belongs to no other persisted post)
admin edit of an existing post redirects to the post page and commits a
row that keeps the post's id and date, takes title, subtitle, body and
img_url from the form, and has the editing identity as author; users and
comments are untouched and every other post survives unchanged. -/
theorem C7_edit_reassigns_author (db : DB) (session : Option Nat) (u : User)
    (pid : Nat) (form : PostFormData) (post : BlogPost)
    (hu : current_user db session = some u) (hadm : u.email = ADMIN_EMAIL)
    (hp : post ∈ db.blog_posts) (hid : post.id = pid)
    (hti : ∀ q ∈ db.blog_posts, q.id ≠ pid → q.title ≠ form.title) :
    (edit_post db session pid true form).response =
      Response.redirect "show_post" ∧
    (edit_post db session pid true form).db.users = db.users ∧
    (edit_post db session pid true form).db.comments = db.comments ∧
    (∃ q ∈ (edit_post db session pid true form).db.blog_posts,
       q.id = post.id ∧ q.date = post.date ∧
       q.title = form.title ∧ q.subtitle = form.subtitle ∧
       q.body = form.body ∧ q.img_url = form.img_url ∧
       q.author_id = u.id) ∧
    (∀ q ∈ db.blog_posts, q.id ≠ pid →
       q ∈ (edit_post db session pid true form).db.blog_posts) := by
  have hbne : (u.email != ADMIN_EMAIL) = false := by
    rw [hadm]; exact bne_self_eq_false _
  have hsome : (get_post db pid).isSome :=
    List.find?_isSome.mpr ⟨post, hp, by simp [hid]⟩
  rcases Option.isSome_iff_exists.mp hsome with ⟨w, hw⟩
  have hany : (db.blog_posts.any fun p => p.id != pid && p.title == form.title) = false := by
    rw [List.any_eq_false]
    intro x hx
    by_cases hxid : x.id = pid
    · simp [hxid]
    · simp [hti x hx hxid]
  have hres : edit_post db session pid true form =
      { db := ⟨db.users, db.blog_posts.map (edit_apply form u pid),
          db.comments, db.next_user_id, db.next_post_id,
          db.next_comment_id⟩,
        session := session, flashes := [],
        response := .redirect "show_post",
        events := [.loginCheck, .adminCheck, .handlerRun] } := by
    simp [edit_post, guardedRoute, edit_post_body, hu, hbne, hw, hany]
  rw [hres]
  refine ⟨rfl, rfl, rfl, ?_, ?_⟩
  · refine ⟨edit_apply form u pid post,
      List.mem_map_of_mem (edit_apply form u pid) hp, ?_⟩
    simp [edit_apply, hid]
  · intro q hq hne
    have hmem := List.mem_map_of_mem (edit_apply form u pid) hq
    have hfix : edit_apply form u pid q = q := by
      simp [edit_apply, hne]
    rwa [hfix] at hmem

/-- Witness for C7: the admin edits the existing post 1 with `form0`,
whose title collides with no other post. -/
theorem C7_edit_reassigns_author_witness :
    current_user db0 (some 1) = some admin0 ∧
    admin0.email = ADMIN_EMAIL ∧ post0 ∈ db0.blog_posts ∧ post0.id = 1 ∧
    (∀ q ∈ db0.blog_posts, q.id ≠ 1 → q.title ≠ form0.title) ∧
    ((edit_post db0 (some 1) 1 true form0).response =
       Response.redirect "show_post" ∧
     (edit_post db0 (some 1) 1 true form0).db.users = db0.users ∧
     (edit_post db0 (some 1) 1 true form0).db.comments = db0.comments ∧
     (∃ q ∈ (edit_post db0 (some 1) 1 true form0).db.blog_posts,
        q.id = post0.id ∧ q.date = post0.date ∧
        q.title = form0.title ∧ q.subtitle = form0.subtitle ∧
        q.body = form0.body ∧ q.img_url = form0.img_url ∧
        q.author_id = admin0.id) ∧
     (∀ q ∈ db0.blog_posts, q.id ≠ 1 →
        q ∈ (edit_post db0 (some 1) 1 true form0).db.blog_posts)) :=
  ⟨by decide, by decide, by decide, by decide, by decide,
    C7_edit_reassigns_author db0 (some 1) admin0 1 form0 post0
      (by decide) (by decide) (by decide) (by decide) (by decide)⟩

/-- C8 counterexample: "c@c.c" is a fresh email on the concrete store, yet
registering it with Alice's password and salt generates a hash string
equal to Alice's stored one; `users.password` is UNIQUE, so the insert
raises `IntegrityError` before `login_user` runs, the store and session
are unchanged, and the follow-up login with the same credentials fails —
the round trip does not succeed for every fresh email and password. -/
theorem C8_counterexample :
    (∀ u ∈ db0.users, u.email ≠ "c@c.c") ∧
    (register db0 none true ⟨"Carol", "c@c.c", "pw1"⟩ 3).response =
      Response.pyError "IntegrityError: UNIQUE constraint failed: users.password" ∧
    (register db0 none true ⟨"Carol", "c@c.c", "pw1"⟩ 3).db = db0 ∧
    (register db0 none true ⟨"Carol", "c@c.c", "pw1"⟩ 3).session = none ∧
    (login (register db0 none true ⟨"Carol", "c@c.c", "pw1"⟩ 3).db
       (register db0 none true ⟨"Carol", "c@c.c", "pw1"⟩ 3).session
       true ⟨"c@c.c", "pw1"⟩).response = Response.render "login.html" := by
  decide

/-- C8 (amended): registering a fresh email whose generated hash collides
with no stored hash (`users.password` is UNIQUE) and then logging in with
the same email and password both succeed, and the identity afterwards is
exactly the user created by the registration (whose stored password is
the salted hash of the submitted password). -/
theorem C8_register_login_roundtrip (db : DB) (session : Option Nat)
    (name email pw : String) (salt : Nat)
    (hfresh : ∀ u ∈ db.users, u.email ≠ email)
    (hids : ∀ u ∈ db.users, u.id ≠ db.next_user_id)
    (hnocoll : ∀ u ∈ db.users, u.password ≠ generate_password_hash pw salt) :
    (register db session true ⟨name, email, pw⟩ salt).response =
      Response.redirect "get_all_posts" ∧
    (login (register db session true ⟨name, email, pw⟩ salt).db
       (register db session true ⟨name, email, pw⟩ salt).session
       true ⟨email, pw⟩).response = Response.redirect "get_all_posts" ∧
    current_user
      (login (register db session true ⟨name, email, pw⟩ salt).db
         (register db session true ⟨name, email, pw⟩ salt).session
         true ⟨email, pw⟩).db
      (login (register db session true ⟨name, email, pw⟩ salt).db
         (register db session true ⟨name, email, pw⟩ salt).session
         true ⟨email, pw⟩).session =
      some ⟨db.next_user_id, name, email, generate_password_hash pw salt⟩ := by
  have hnone : db.users.find? (fun v => v.email == email) = none :=
    find?_eq_none_of_forall (fun x hx => by
      simp only [beq_eq_false_iff_ne, ne_eq]; exact hfresh x hx)
  have hany0 : (db.users.any fun v =>
      v.password == generate_password_hash pw salt) = false := by
    rw [List.any_eq_false]
    intro x hx
    simp [hnocoll x hx]
  have hreg : register db session true ⟨name, email, pw⟩ salt =
      { db := ⟨db.users ++
            [⟨db.next_user_id, name, email, generate_password_hash pw salt⟩],
          db.blog_posts, db.comments, db.next_user_id + 1,
          db.next_post_id, db.next_comment_id⟩,
        session := some db.next_user_id, flashes := [],
        response := .redirect "get_all_posts", events := [] } := by
    simp [register, hnone, hany0]
  rw [hreg]
  have hfind2 : (db.users ++
        [(⟨db.next_user_id, name, email, generate_password_hash pw salt⟩ : User)]).find?
        (fun v => v.email == email) =
      some ⟨db.next_user_id, name, email, generate_password_hash pw salt⟩ := by
    rw [List.find?_append, hnone]
    simp [List.find?_cons]
  have hck : check_password_hash (generate_password_hash pw salt) pw = true := by
    simp [check_password_hash, generate_password_hash]
  have hidnone : db.users.find? (fun v => v.id == db.next_user_id) = none :=
    find?_eq_none_of_forall (fun x hx => by
      simp only [beq_eq_false_iff_ne, ne_eq]; exact hids x hx)
  have hfindid : (db.users ++
        [(⟨db.next_user_id, name, email, generate_password_hash pw salt⟩ : User)]).find?
        (fun v => v.id == db.next_user_id) =
      some ⟨db.next_user_id, name, email, generate_password_hash pw salt⟩ := by
    rw [List.find?_append, hidnone]
    simp [List.find?_cons]
  refine ⟨rfl, ?_, ?_⟩
  · simp [login, hfind2, hck]
  · simp [login, hfind2, hck, current_user, load_user, get_user, hfindid]
    exact Or.inr (fun x hx => hids x hx)

/-- Witness for the amended C8: registering Carol (fresh email, fresh
hash) on the concrete store and logging back in. -/
theorem C8_register_login_roundtrip_witness :
    (∀ u ∈ db0.users, u.email ≠ "c@c.c") ∧
    (∀ u ∈ db0.users, u.id ≠ db0.next_user_id) ∧
    (∀ u ∈ db0.users, u.password ≠ generate_password_hash "pw9" 4) ∧
    ((register db0 none true ⟨"Carol", "c@c.c", "pw9"⟩ 4).response =
       Response.redirect "get_all_posts" ∧
     (login (register db0 none true ⟨"Carol", "c@c.c", "pw9"⟩ 4).db
        (register db0 none true ⟨"Carol", "c@c.c", "pw9"⟩ 4).session
        true ⟨"c@c.c", "pw9"⟩).response = Response.redirect "get_all_posts" ∧
     current_user
       (login (register db0 none true ⟨"Carol", "c@c.c", "pw9"⟩ 4).db
          (register db0 none true ⟨"Carol", "c@c.c", "pw9"⟩ 4).session
          true ⟨"c@c.c", "pw9"⟩).db
       (login (register db0 none true ⟨"Carol", "c@c.c", "pw9"⟩ 4).db
          (register db0 none true ⟨"Carol", "c@c.c", "pw9"⟩ 4).session
          true ⟨"c@c.c", "pw9"⟩).session =
       some ⟨db0.next_user_id, "Carol", "c@c.c",
         generate_password_hash "pw9" 4⟩) :=
  ⟨by decide, by decide, by decide,
    C8_register_login_roundtrip db0 none "Carol" "c@c.c" "pw9" 4
      (by decide) (by decide) (by decide)⟩

end FlaskBlog
